import Mathlib

/-!
Verification development for the PRUDP server core (nex-go).

Bytes are modelled as `Nat` values (well-formed data holds values `< 256`);
machine integers are `Nat`/`Int` with explicit `% 2^w` where overflow matters.
External collaborators that are not part of the sources (RC4/HMAC crypto,
packet serialization, connection-signature computation) enter the model as
oracle function parameters carried in a `Config` record, so every definition
stays executable.
-/

namespace Nex

/-- Input byte stream, mirroring `StreamIn` (stream_in.go): a byte buffer plus
a read offset. -/
structure StreamIn where
  data : List Nat
  pos : Nat
  deriving DecidableEq

/-- The bytes from the read offset to the end of the buffer. -/
def StreamIn.bytesLeft (s : StreamIn) : List Nat := s.data.drop s.pos

/-- Mirrors `StreamIn.Remaining` (stream_in.go line 18): the number of bytes
left to read. -/
def StreamIn.Remaining (s : StreamIn) : Nat := s.bytesLeft.length

/-- The byte `i` positions past the read offset (0 when out of range; the
source never reads out of range thanks to the `Remaining` guards). -/
def StreamIn.byteAt (s : StreamIn) (i : Nat) : Nat := s.bytesLeft.getD i 0

/-- Advance the read offset by `n` bytes (the crunch `Read*Next` offset
update). -/
def StreamIn.advance (s : StreamIn) (n : Nat) : StreamIn := ⟨s.data, s.pos + n⟩

/-- Little-endian 16-bit value at the read offset. -/
def StreamIn.u16LEAt (s : StreamIn) : Nat := s.byteAt 0 + 256 * s.byteAt 1

/-- Big-endian 16-bit value at the read offset. -/
def StreamIn.u16BEAt (s : StreamIn) : Nat := 256 * s.byteAt 0 + s.byteAt 1

/-- Little-endian 32-bit value at the read offset. -/
def StreamIn.u32LEAt (s : StreamIn) : Nat :=
  s.byteAt 0 + 256 * s.byteAt 1 + 65536 * s.byteAt 2 + 16777216 * s.byteAt 3

/-- Big-endian 32-bit value at the read offset. -/
def StreamIn.u32BEAt (s : StreamIn) : Nat :=
  16777216 * s.byteAt 0 + 65536 * s.byteAt 1 + 256 * s.byteAt 2 + s.byteAt 3

/-- Little-endian 64-bit value at the read offset. -/
def StreamIn.u64LEAt (s : StreamIn) : Nat :=
  s.byteAt 0 + 256 * s.byteAt 1 + 65536 * s.byteAt 2 + 16777216 * s.byteAt 3 +
    4294967296 * s.byteAt 4 + 1099511627776 * s.byteAt 5 +
    281474976710656 * s.byteAt 6 + 72057594037927936 * s.byteAt 7

/-- Big-endian 64-bit value at the read offset. -/
def StreamIn.u64BEAt (s : StreamIn) : Nat :=
  72057594037927936 * s.byteAt 0 + 281474976710656 * s.byteAt 1 +
    1099511627776 * s.byteAt 2 + 4294967296 * s.byteAt 3 +
    16777216 * s.byteAt 4 + 65536 * s.byteAt 5 + 256 * s.byteAt 6 + s.byteAt 7

/-- Two's-complement reinterpretation of a byte, as in Go `int8(b)`. -/
def toInt8 (b : Nat) : Int := if b < 128 then (b : Int) else (b : Int) - 256

/-- Two's-complement reinterpretation of a 16-bit value, as in Go `int16(v)`. -/
def toInt16 (v : Nat) : Int := if v < 32768 then (v : Int) else (v : Int) - 65536

/-- Two's-complement reinterpretation of a 32-bit value, as in Go `int32(v)`. -/
def toInt32 (v : Nat) : Int :=
  if v < 2147483648 then (v : Int) else (v : Int) - 4294967296

/-- Two's-complement reinterpretation of a 64-bit value, as in Go `int64(v)`. -/
def toInt64 (v : Nat) : Int :=
  if v < 9223372036854775808 then (v : Int) else (v : Int) - 18446744073709551616

/-- Mirrors `StreamIn.ReadUInt8` (stream_in.go lines 29-35). Returns the Go
multiple-return `(value, err)` pair together with the updated stream. -/
def StreamIn.ReadUInt8 (s : StreamIn) : Nat × Option String × StreamIn :=
  if s.Remaining < 1 then (0, some "Not enough data to read uint8", s)
  else (s.byteAt 0, none, s.advance 1)

/-- Mirrors `StreamIn.ReadInt8` (stream_in.go lines 38-44). -/
def StreamIn.ReadInt8 (s : StreamIn) : Int × Option String × StreamIn :=
  if s.Remaining < 1 then (0, some "Not enough data to read int8", s)
  else (toInt8 (s.byteAt 0), none, s.advance 1)

/-- Mirrors `StreamIn.ReadUInt16LE` (stream_in.go lines 47-53). -/
def StreamIn.ReadUInt16LE (s : StreamIn) : Nat × Option String × StreamIn :=
  if s.Remaining < 2 then (0, some "Not enough data to read uint16", s)
  else (s.u16LEAt, none, s.advance 2)

/-- Mirrors `StreamIn.ReadUInt16BE` (stream_in.go lines 56-62). -/
def StreamIn.ReadUInt16BE (s : StreamIn) : Nat × Option String × StreamIn :=
  if s.Remaining < 2 then (0, some "Not enough data to read uint16", s)
  else (s.u16BEAt, none, s.advance 2)

/-- Mirrors `StreamIn.ReadInt16LE` (stream_in.go lines 65-71). -/
def StreamIn.ReadInt16LE (s : StreamIn) : Int × Option String × StreamIn :=
  if s.Remaining < 2 then (0, some "Not enough data to read int16", s)
  else (toInt16 s.u16LEAt, none, s.advance 2)

/-- Mirrors `StreamIn.ReadInt16BE` (stream_in.go lines 74-80). -/
def StreamIn.ReadInt16BE (s : StreamIn) : Int × Option String × StreamIn :=
  if s.Remaining < 2 then (0, some "Not enough data to read int16", s)
  else (toInt16 s.u16BEAt, none, s.advance 2)

/-- Mirrors `StreamIn.ReadUInt32LE` (stream_in.go lines 83-89). -/
def StreamIn.ReadUInt32LE (s : StreamIn) : Nat × Option String × StreamIn :=
  if s.Remaining < 4 then (0, some "Not enough data to read uint32", s)
  else (s.u32LEAt, none, s.advance 4)

/-- Mirrors `StreamIn.ReadUInt32BE` (stream_in.go lines 92-98). -/
def StreamIn.ReadUInt32BE (s : StreamIn) : Nat × Option String × StreamIn :=
  if s.Remaining < 4 then (0, some "Not enough data to read uint32", s)
  else (s.u32BEAt, none, s.advance 4)

/-- Mirrors `StreamIn.ReadInt32LE` (stream_in.go lines 101-107). -/
def StreamIn.ReadInt32LE (s : StreamIn) : Int × Option String × StreamIn :=
  if s.Remaining < 4 then (0, some "Not enough data to read int32", s)
  else (toInt32 s.u32LEAt, none, s.advance 4)

/-- Mirrors `StreamIn.ReadInt32BE` (stream_in.go lines 110-116). -/
def StreamIn.ReadInt32BE (s : StreamIn) : Int × Option String × StreamIn :=
  if s.Remaining < 4 then (0, some "Not enough data to read int32", s)
  else (toInt32 s.u32BEAt, none, s.advance 4)

/-- Mirrors `StreamIn.ReadUInt64LE` (stream_in.go lines 119-125). -/
def StreamIn.ReadUInt64LE (s : StreamIn) : Nat × Option String × StreamIn :=
  if s.Remaining < 8 then (0, some "Not enough data to read uint64", s)
  else (s.u64LEAt, none, s.advance 8)

/-- Mirrors `StreamIn.ReadUInt64BE` (stream_in.go lines 128-134). -/
def StreamIn.ReadUInt64BE (s : StreamIn) : Nat × Option String × StreamIn :=
  if s.Remaining < 8 then (0, some "Not enough data to read uint64", s)
  else (s.u64BEAt, none, s.advance 8)

/-- Mirrors `StreamIn.ReadInt64LE` (stream_in.go lines 137-143). -/
def StreamIn.ReadInt64LE (s : StreamIn) : Int × Option String × StreamIn :=
  if s.Remaining < 8 then (0, some "Not enough data to read int64", s)
  else (toInt64 s.u64LEAt, none, s.advance 8)

/-- Mirrors `StreamIn.ReadInt64BE` (stream_in.go lines 146-152). -/
def StreamIn.ReadInt64BE (s : StreamIn) : Int × Option String × StreamIn :=
  if s.Remaining < 8 then (0, some "Not enough data to read int64", s)
  else (toInt64 s.u64BEAt, none, s.advance 8)

/-- Mirrors `StreamIn.ReadFloat32LE` (stream_in.go lines 155-161). The IEEE-754
value is represented by its 32-bit pattern; the zero value of `float32`
corresponds to bit pattern 0. -/
def StreamIn.ReadFloat32LE (s : StreamIn) : Nat × Option String × StreamIn :=
  if s.Remaining < 4 then (0, some "Not enough data to read float32", s)
  else (s.u32LEAt, none, s.advance 4)

/-- Mirrors `StreamIn.ReadFloat32BE` (stream_in.go lines 164-170). -/
def StreamIn.ReadFloat32BE (s : StreamIn) : Nat × Option String × StreamIn :=
  if s.Remaining < 4 then (0, some "Not enough data to read float32", s)
  else (s.u32BEAt, none, s.advance 4)

/-- Mirrors `StreamIn.ReadFloat64LE` (stream_in.go lines 173-179), as bit
pattern. -/
def StreamIn.ReadFloat64LE (s : StreamIn) : Nat × Option String × StreamIn :=
  if s.Remaining < 8 then (0, some "Not enough data to read float64", s)
  else (s.u64LEAt, none, s.advance 8)

/-- Mirrors `StreamIn.ReadFloat64BE` (stream_in.go lines 182-188), as bit
pattern. -/
def StreamIn.ReadFloat64BE (s : StreamIn) : Nat × Option String × StreamIn :=
  if s.Remaining < 8 then (0, some "Not enough data to read float64", s)
  else (s.u64BEAt, none, s.advance 8)

/-- Mirrors `StreamIn.ReadBool` (stream_in.go lines 191-197). -/
def StreamIn.ReadBool (s : StreamIn) : Bool × Option String × StreamIn :=
  if s.Remaining < 1 then (false, some "Not enough data to read bool", s)
  else (s.byteAt 0 == 1, none, s.advance 1)

/-- Mirrors `StreamIn.ReadBuffer` (stream_in.go lines 251-264): u32 LE length
prefix followed by that many bytes. On a failed length check the offset stays
past the length field, exactly as in the source. -/
def StreamIn.ReadBuffer (s : StreamIn) : List Nat × Option String × StreamIn :=
  match s.ReadUInt32LE with
  | (_, some msg, s1) =>
      ([], some ("Failed to read NEX buffer length. " ++ msg), s1)
  | (len, none, s1) =>
      if s1.Remaining < len then
        ([], some "NEX buffer length longer than data size", s1)
      else
        (s1.bytesLeft.take len, none, s1.advance len)

/-- Little-endian serialization of a 16-bit value
(`WriteUInt16LE` / `WritePrimitiveUInt16LE`). -/
def writeUInt16LE (v : Nat) : List Nat := [v % 256, v / 256 % 256]

/-- Little-endian serialization of a 32-bit value
(`WriteUInt32LE` / `WritePrimitiveUInt32LE`, byte_stream_out.go lines 72-75). -/
def writeUInt32LE (v : Nat) : List Nat :=
  [v % 256, v / 256 % 256, v / 65536 % 256, v / 16777216 % 256]

/-- Little-endian serialization of a 64-bit value
(`WritePrimitiveUInt64LE`, byte_stream_out.go lines 78-81). -/
def writeUInt64LE (v : Nat) : List Nat :=
  [v % 256, v / 256 % 256, v / 65536 % 256, v / 16777216 % 256,
   v / 4294967296 % 256, v / 1099511627776 % 256,
   v / 281474976710656 % 256, v / 72057594037927936 % 256]

/-- Behavioural specification shared by every fixed-width typed read: on a
short buffer the read returns the zero value with an error and leaves the
offset unchanged; otherwise it returns the decoded value, no error, and
advances the offset by exactly the width. -/
def FixedWidthReadSpec {α : Type} (width : Nat) (zero : α) (decode : StreamIn → α)
    (read : StreamIn → α × Option String × StreamIn) : Prop :=
  ∀ s : StreamIn,
    (s.Remaining < width →
      (read s).1 = zero ∧ ((read s).2.1).isSome = true ∧ (read s).2.2 = s) ∧
    (width ≤ s.Remaining →
      read s = (decode s, none, StreamIn.mk s.data (s.pos + width)))

theorem fixedWidthReadSpec_of {α : Type} (width : Nat) (zero : α)
    (decode : StreamIn → α) (msg : String)
    (read : StreamIn → α × Option String × StreamIn)
    (hread : ∀ s, read s =
      if s.Remaining < width then (zero, some msg, s)
      else (decode s, none, s.advance width)) :
    FixedWidthReadSpec width zero decode read := by
  intro s
  constructor
  · intro h
    rw [hread, if_pos h]
    exact ⟨rfl, rfl, rfl⟩
  · intro h
    rw [hread, if_neg (by omega)]
    rfl

/-- C9: every fixed-width typed read on StreamIn (ReadUInt8 through
ReadUInt64LE/BE, signed and float variants, ReadBool) returns the zero value
together with an error and leaves the read offset unchanged when fewer bytes
remain than the type requires; otherwise it returns the decoded value and
advances the offset by exactly the type's width. -/
theorem stream_in_fixed_width_reads :
    FixedWidthReadSpec 1 0 (fun s => s.byteAt 0) StreamIn.ReadUInt8 ∧
    FixedWidthReadSpec 1 (0 : Int) (fun s => toInt8 (s.byteAt 0)) StreamIn.ReadInt8 ∧
    FixedWidthReadSpec 2 0 StreamIn.u16LEAt StreamIn.ReadUInt16LE ∧
    FixedWidthReadSpec 2 0 StreamIn.u16BEAt StreamIn.ReadUInt16BE ∧
    FixedWidthReadSpec 2 (0 : Int) (fun s => toInt16 s.u16LEAt) StreamIn.ReadInt16LE ∧
    FixedWidthReadSpec 2 (0 : Int) (fun s => toInt16 s.u16BEAt) StreamIn.ReadInt16BE ∧
    FixedWidthReadSpec 4 0 StreamIn.u32LEAt StreamIn.ReadUInt32LE ∧
    FixedWidthReadSpec 4 0 StreamIn.u32BEAt StreamIn.ReadUInt32BE ∧
    FixedWidthReadSpec 4 (0 : Int) (fun s => toInt32 s.u32LEAt) StreamIn.ReadInt32LE ∧
    FixedWidthReadSpec 4 (0 : Int) (fun s => toInt32 s.u32BEAt) StreamIn.ReadInt32BE ∧
    FixedWidthReadSpec 8 0 StreamIn.u64LEAt StreamIn.ReadUInt64LE ∧
    FixedWidthReadSpec 8 0 StreamIn.u64BEAt StreamIn.ReadUInt64BE ∧
    FixedWidthReadSpec 8 (0 : Int) (fun s => toInt64 s.u64LEAt) StreamIn.ReadInt64LE ∧
    FixedWidthReadSpec 8 (0 : Int) (fun s => toInt64 s.u64BEAt) StreamIn.ReadInt64BE ∧
    FixedWidthReadSpec 4 0 StreamIn.u32LEAt StreamIn.ReadFloat32LE ∧
    FixedWidthReadSpec 4 0 StreamIn.u32BEAt StreamIn.ReadFloat32BE ∧
    FixedWidthReadSpec 8 0 StreamIn.u64LEAt StreamIn.ReadFloat64LE ∧
    FixedWidthReadSpec 8 0 StreamIn.u64BEAt StreamIn.ReadFloat64BE ∧
    FixedWidthReadSpec 1 false (fun s => s.byteAt 0 == 1) StreamIn.ReadBool :=
  ⟨fixedWidthReadSpec_of _ _ _ _ _ (fun _ => rfl),
   fixedWidthReadSpec_of _ _ _ _ _ (fun _ => rfl),
   fixedWidthReadSpec_of _ _ _ _ _ (fun _ => rfl),
   fixedWidthReadSpec_of _ _ _ _ _ (fun _ => rfl),
   fixedWidthReadSpec_of _ _ _ _ _ (fun _ => rfl),
   fixedWidthReadSpec_of _ _ _ _ _ (fun _ => rfl),
   fixedWidthReadSpec_of _ _ _ _ _ (fun _ => rfl),
   fixedWidthReadSpec_of _ _ _ _ _ (fun _ => rfl),
   fixedWidthReadSpec_of _ _ _ _ _ (fun _ => rfl),
   fixedWidthReadSpec_of _ _ _ _ _ (fun _ => rfl),
   fixedWidthReadSpec_of _ _ _ _ _ (fun _ => rfl),
   fixedWidthReadSpec_of _ _ _ _ _ (fun _ => rfl),
   fixedWidthReadSpec_of _ _ _ _ _ (fun _ => rfl),
   fixedWidthReadSpec_of _ _ _ _ _ (fun _ => rfl),
   fixedWidthReadSpec_of _ _ _ _ _ (fun _ => rfl),
   fixedWidthReadSpec_of _ _ _ _ _ (fun _ => rfl),
   fixedWidthReadSpec_of _ _ _ _ _ (fun _ => rfl),
   fixedWidthReadSpec_of _ _ _ _ _ (fun _ => rfl),
   fixedWidthReadSpec_of _ _ _ _ _ (fun _ => rfl)⟩

/-- Witness for C9: concrete instances of both branches, obtained by applying
the theorem at concrete streams. -/
theorem stream_in_fixed_width_reads_witness :
    StreamIn.ReadUInt16LE ⟨[1, 2, 3], 0⟩ =
      (StreamIn.u16LEAt ⟨[1, 2, 3], 0⟩, none, StreamIn.mk [1, 2, 3] 2) ∧
    (StreamIn.ReadUInt64LE ⟨[5], 0⟩).1 = 0 ∧
    (StreamIn.ReadUInt64LE ⟨[5], 0⟩).2.2 = ⟨[5], 0⟩ := by
  refine ⟨(stream_in_fixed_width_reads.2.2.1 ⟨[1, 2, 3], 0⟩).2 (by decide), ?_, ?_⟩
  · exact ((stream_in_fixed_width_reads.2.2.2.2.2.2.2.2.2.2.1 ⟨[5], 0⟩).1 (by decide)).1
  · exact ((stream_in_fixed_width_reads.2.2.2.2.2.2.2.2.2.2.1 ⟨[5], 0⟩).1 (by decide)).2.2

/-- The fragmentation loop of `PRUDPServer.Send` (prudp_server.go lines
481-502). The loop runs a fixed `len(data)/FragmentSize + 1` times; each
iteration records the `(fragmentID, payload)` pair handed to `sendPacket`.
The fragment-id variable is a `uint8`, so it wraps modulo 256. -/
def sendLoopGo (F : Nat) : Nat → List Nat → Nat → List (Nat × List Nat)
  | 0, _, _ => []
  | n + 1, data, fid =>
    if data.length < F then
      (0, data) :: sendLoopGo F n data fid
    else
      (fid, data.take F) :: sendLoopGo F n (data.drop F) ((fid + 1) % 256)

/-- Mirrors `PRUDPServer.Send`: `fragments := len(data) / FragmentSize` is
computed once, the loop runs `fragments + 1` times, and the fragment id starts
at 1. -/
def sendFragments (F : Nat) (payload : List Nat) : List (Nat × List Nat) :=
  sendLoopGo F (payload.length / F + 1) payload 1

/-- Closed form of the fragment sequence the send path actually produces:
`len(P)/F` full fragments with ids 1, 2, ... (mod 256) followed by one final
fragment with id 0 carrying the remaining `len(P) mod F` bytes. -/
def goFragmentList (F : Nat) (P : List Nat) : List (Nat × List Nat) :=
  ((List.range (P.length / F)).map fun i => ((1 + i) % 256, (P.drop (i * F)).take F))
    ++ [(0, P.drop (P.length / F * F))]

theorem sendLoopGo_closed (F : Nat) (hF : 0 < F) :
    ∀ (n : Nat) (data : List Nat) (fid : Nat), fid < 256 → n = data.length / F →
      sendLoopGo F (n + 1) data fid =
        ((List.range n).map fun i => ((fid + i) % 256, (data.drop (i * F)).take F))
          ++ [(0, data.drop (n * F))] := by
  intro n
  induction n with
  | zero =>
    intro data fid hfid hn
    have hlt : data.length < F := by
      by_contra h
      have h2 : 1 ≤ data.length / F := (Nat.one_le_div_iff hF).2 (by omega)
      omega
    simp [sendLoopGo, if_pos hlt]
  | succ n ih =>
    intro data fid hfid hn
    have hge : F ≤ data.length := by
      by_contra h
      have h0 : data.length / F = 0 := Nat.div_eq_of_lt (by omega)
      omega
    have hsub : data.length / F = (data.length - F) / F + 1 := Nat.div_eq_sub_div hF hge
    have hdrop : n = (data.drop F).length / F := by
      have h1 : (data.drop F).length = data.length - F := by simp
      rw [h1]
      omega
    have ihx := ih (data.drop F) ((fid + 1) % 256) (Nat.mod_lt _ (by omega)) hdrop
    have hstep : sendLoopGo F (n + 1 + 1) data fid
        = (fid, data.take F) :: sendLoopGo F (n + 1) (data.drop F) ((fid + 1) % 256) := by
      simp only [sendLoopGo]
      rw [if_neg (by omega)]
    rw [hstep, ihx, List.range_succ_eq_map, List.map_cons, List.cons_append]
    refine congrArg₂ List.cons ?_ (congrArg₂ _ ?_ ?_)
    · simp [Nat.mod_eq_of_lt hfid]
    · rw [List.map_map]
      refine List.map_congr_left ?_
      intro i _
      simp only [Function.comp_apply, Prod.mk.injEq, Nat.succ_eq_add_one]
      refine ⟨?_, ?_⟩
      · rw [Nat.mod_add_mod]
        congr 1
        ring
      · rw [List.drop_drop]
        congr 2
        ring
    · rw [List.drop_drop]
      congr 2
      ring

/-- Counterexample for C1: with fragment size 1 the one-byte payload is sent
as TWO packets, id 1 carrying the byte and id 0 carrying nothing, not as a
single packet with id 0 as the claim requires for any payload with
len(P) ≤ F; also the packet count 2 differs from ceil(1/1) = 1. -/
theorem send_single_fragment_claim_false :
    sendFragments 1 [42] = [(1, [42]), (0, [])] ∧
    (sendFragments 1 [42]).length = 2 ∧ (1 + 1 - 1) / 1 = 1 := by decide

/-- C1 amended: for fragment size F > 0 the send path emits exactly
len(P)/F + 1 fragment packets: len(P)/F full fragments of F bytes with ids
1, 2, ... (mod 256), then a final fragment with id 0 carrying the remaining
len(P) mod F bytes. A payload with len(P) < F is sent as a single packet with
id 0; an exact multiple of F gets an extra final empty id-0 packet. -/
theorem send_fragmentation_corrected (F : Nat) (P : List Nat) (hF : 0 < F) :
    sendFragments F P = goFragmentList F P ∧
    (sendFragments F P).length = P.length / F + 1 ∧
    (P.length < F → sendFragments F P = [(0, P)]) := by
  have hclosed : sendFragments F P = goFragmentList F P := by
    unfold sendFragments goFragmentList
    exact sendLoopGo_closed F hF (P.length / F) P 1 (by omega) rfl
  refine ⟨hclosed, ?_, ?_⟩
  · rw [hclosed]
    simp [goFragmentList]
  · intro hlt
    have h0 : P.length / F = 0 := Nat.div_eq_of_lt hlt
    rw [hclosed]
    simp [goFragmentList, h0]

/-- Witness for C1's amended theorem at F = 3, P = [1,2,3,4]. -/
theorem send_fragmentation_corrected_witness :
    (0 : Nat) < 3 ∧ sendFragments 3 [1, 2, 3, 4] = goFragmentList 3 [1, 2, 3, 4] :=
  ⟨by decide, (send_fragmentation_corrected 3 [1, 2, 3, 4] (by decide)).1⟩

/-- PRUDP packet types (SYN, CONNECT, DATA, DISCONNECT, PING). -/
inductive PacketType
  | syn
  | connect
  | data
  | disconnect
  | ping
  deriving DecidableEq

/-- The PRUDP flag set (ACK, RELIABLE, NEEDS_ACK, HAS_SIZE, MULTI_ACK). -/
structure Flags where
  ack : Bool
  reliable : Bool
  needsAck : Bool
  hasSize : Bool
  multiAck : Bool
  deriving DecidableEq

/-- The empty flag set. -/
def Flags.clear : Flags := ⟨false, false, false, false, false⟩

/-- A decoded PRUDP packet, with the attributes the server core reads and
writes (both versions; the v1-only option fields sit at the end and are 0 for
v0 packets). -/
structure Packet where
  version : Nat
  ptype : PacketType
  flags : Flags
  sourceStreamType : Nat
  sourcePort : Nat
  destinationStreamType : Nat
  destinationPort : Nat
  sessionID : Nat
  substreamID : Nat
  sequenceID : Nat
  fragmentID : Nat
  connectionSignature : List Nat
  payload : List Nat
  maximumSubstreamID : Nat
  minorVersion : Nat
  supportedFunctions : Nat
  deriving DecidableEq

/-- A freshly allocated packet (`NewPRUDPPacketV0` / `NewPRUDPPacketV1` with a
nil stream): all fields zero; the zero packet type is SYN. -/
def emptyPacket (version : Nat) : Packet :=
  { version := version
    ptype := .syn
    flags := Flags.clear
    sourceStreamType := 0
    sourcePort := 0
    destinationStreamType := 0
    destinationPort := 0
    sessionID := 0
    substreamID := 0
    sequenceID := 0
    fragmentID := 0
    connectionSignature := []
    payload := []
    maximumSubstreamID := 0
    minorVersion := 0
    supportedFunctions := 0 }

/-- Modelled from the spec: the per-peer, per-substream reliable state
(`ReliablePacketSubstreamManager`, not under src/): outgoing sequence counter,
next expected incoming id, pending in-order buffer, fragmented-payload
accumulator, the retransmission scheduler's pending map
(`ResendScheduler.packets`, keyed by sequence id), and an abstract outbound
RC4 cipher position. -/
structure Substream where
  outgoingCounter : Nat
  nextExpected : Nat
  pendingIn : List (Nat × Packet)
  fragmentedPayload : List Nat
  scheduler : List (Nat × Packet)
  cipherState : Nat
  deriving DecidableEq

/-- Modelled from the spec: a fresh substream; the outgoing sequence counter
yields 1 first. -/
def Substream.init : Substream := ⟨0, 1, [], [], [], 0⟩

/-- Modelled from the spec: `NextOutgoingSequenceID` returns and advances the
monotonic counter (a uint16, wrapping). -/
def Substream.nextOutgoing (ss : Substream) : Nat × Substream :=
  let v := (ss.outgoingCounter + 1) % 65536
  (v, { ss with outgoingCounter := v })

/-- Per-peer session state (`PRUDPClient`, not under src/; fields modelled
from the spec's Peer data model and the accesses in prudp_server.go). The
heartbeat timer is real-time and not part of this state. -/
structure Client where
  address : Nat
  pid : Nat
  sessionKey : List Nat
  clientConnectionSignature : List Nat
  serverConnectionSignature : List Nat
  sourceStreamType : Nat
  sourcePort : Nat
  destinationStreamType : Nat
  destinationPort : Nat
  minorVersion : Nat
  supportedFunctions : Nat
  substreams : List Substream
  unreliableSeq : Nat
  pingSeq : Nat
  deriving DecidableEq

/-- Mirrors `client.reliableSubstream(id)`: index into the substream table. -/
def reliableSubstream (c : Client) (i : Nat) : Substream :=
  c.substreams.getD i Substream.init

/-- Replace substream `i` (no-op when out of range, where the original would
fault). -/
def setSubstream (c : Client) (i : Nat) (ss : Substream) : Client :=
  { c with substreams := c.substreams.set i ss }

/-- Modelled from the spec: `client.reset()` on SYN clears the signatures,
session key and substream table. -/
def Client.reset (c : Client) : Client :=
  { c with
    sessionKey := []
    clientConnectionSignature := []
    serverConnectionSignature := []
    substreams := [] }

/-- Server configuration plus the external collaborators (crypto, signatures,
serialization) as deterministic oracle functions. `now` is the value of
`time.Now().UTC()` (in seconds) at processing time. -/
structure Config where
  isSecureServer : Bool
  fragmentSize : Nat
  kerberosPassword : List Nat
  kerberosKeySize : Nat
  now : Nat
  deriveKerberosKey : Nat → List Nat → List Nat
  kerberosDecrypt : List Nat → List Nat → Option (List Nat)
  dtStandard : Nat → Nat
  calcConnSig : Nat → List Nat
  serialize : Packet → List Nat → List Nat → List Nat
  rc4 : Nat → List Nat → List Nat × Nat
  decryptPayload : Packet → List Nat

/-- Observable actions of the dispatcher, in program order: a packet written
to the UDP socket (with its serialized bytes), an event emission, and removal
of the peer from the client registry. -/
inductive Effect
  | sendPkt (p : Packet) (wire : List Nat)
  | emitEvent (name : String) (p : Packet)
  | removeClient
  deriving DecidableEq

/-- The packets written to the socket within a list of effects. -/
def sentPackets (effs : List Effect) : List Packet :=
  effs.filterMap fun e =>
    match e with
    | .sendPkt q _ => some q
    | _ => none

/-- The acknowledgement packet built by `acknowledgePacket` (prudp_server.go
lines 405-422): same type, ACK flag, swapped stream-type/port pairs, and the
received packet's sequence id, fragment id and substream id. -/
def mkAcknowledgement (p : Packet) : Packet :=
  { emptyPacket p.version with
    ptype := p.ptype
    flags := { Flags.clear with ack := true }
    sourceStreamType := p.destinationStreamType
    sourcePort := p.destinationPort
    destinationStreamType := p.sourceStreamType
    destinationPort := p.sourcePort
    sequenceID := p.sequenceID
    fragmentID := p.fragmentID
    substreamID := p.substreamID }

/-- Mirrors `PRUDPServer.sendPacket` (prudp_server.go lines 504-536):
sequence-id assignment, reliable payload encryption, signing (folded into the
serialize oracle), scheduler insertion, and the socket write. -/
def sendPacket (cfg : Config) (c : Client) (p : Packet) : Client × Packet × Effect :=
  let isAckPkt := p.flags.ack || p.flags.multiAck
  let assigned :=
    if isAckPkt then (c, p)
    else if p.flags.reliable then
      let ss := reliableSubstream c p.substreamID
      let nx := ss.nextOutgoing
      (setSubstream c p.substreamID nx.2, { p with sequenceID := nx.1 })
    else if p.ptype = .data then
      ({ c with unreliableSeq := (c.unreliableSeq + 1) % 65536 },
       { p with sequenceID := (c.unreliableSeq + 1) % 65536 })
    else if p.ptype = .ping then
      ({ c with pingSeq := (c.pingSeq + 1) % 65536 },
       { p with sequenceID := (c.pingSeq + 1) % 65536 })
    else (c, { p with sequenceID := 0 })
  let c1 := assigned.1
  let p1 := assigned.2
  let encrypted :=
    if p1.ptype = .data && !isAckPkt && p1.flags.reliable then
      let ss := reliableSubstream c1 p1.substreamID
      let enc := cfg.rc4 ss.cipherState p1.payload
      (setSubstream c1 p1.substreamID { ss with cipherState := enc.2 },
       { p1 with payload := enc.1 })
    else (c1, p1)
  let c2 := encrypted.1
  let p2 := encrypted.2
  let wire := cfg.serialize p2 c2.sessionKey c2.serverConnectionSignature
  let c3 :=
    if p2.flags.reliable && p2.flags.needsAck then
      let ss := reliableSubstream c2 p2.substreamID
      setSubstream c2 p2.substreamID
        { ss with scheduler := ss.scheduler ++ [(p2.sequenceID, p2)] }
    else c2
  (c3, p2, Effect.sendPkt p2 wire)

/-- Mirrors `PRUDPServer.acknowledgePacket` (prudp_server.go lines 405-431):
build the ACK, send it once, and twice more for DISCONNECT packets. -/
def acknowledgePacket (cfg : Config) (c : Client) (p : Packet) : Client × List Effect :=
  let ack := mkAcknowledgement p
  let r1 := sendPacket cfg c ack
  if p.ptype = .disconnect then
    let r2 := sendPacket cfg r1.1 ack
    let r3 := sendPacket cfg r2.1 ack
    (r3.1, [r1.2.2, r2.2.2, r3.2.2])
  else
    (r1.1, [r1.2.2])

/-- Modelled from the spec: `ResendScheduler.AcknowledgePacket(id)` removes
the entry for `id` from the pending map. -/
def schedulerAck (sch : List (Nat × Packet)) (id : Nat) : List (Nat × Packet) :=
  sch.filter fun e => e.1 ≠ id

/-- Mirrors the single-ACK path of `handleAcknowledgment` (prudp_server.go
lines 163-167). -/
def singleAcknowledge (c : Client) (p : Packet) : Client :=
  let ss := reliableSubstream c p.substreamID
  setSubstream c p.substreamID
    { ss with scheduler := schedulerAck ss.scheduler p.sequenceID }

/-- Reads `count` little-endian u16 values, mirroring the bounded read loop of
the new multi-ack format (errors ignored, yielding 0 without advancing,
exactly as the source's discarded error returns behave). -/
def readAdditionalIDs : Nat → StreamIn → List Nat × StreamIn
  | 0, s => ([], s)
  | n + 1, s =>
    let r := s.ReadUInt16LE
    let rest := readAdditionalIDs n r.2.2
    (r.1 :: rest.1, rest.2)

/-- The old multi-ack format's unbounded u16 read loop over the whole payload.
On an odd trailing byte the source's loop never terminates (ReadUInt16LE
fails without advancing), so this model is only meaningful for even-length
payloads, which the theorems below hypothesise. -/
def u16lePairs : List Nat → List Nat
  | b0 :: b1 :: rest => (b0 + 256 * b1) :: u16lePairs rest
  | _ => []

/-- Parses the new multi-ack payload format (prudp_server.go lines 176-187):
u8 real substream id, u8 additional count, u16 base sequence id, then that
many u16 additional ids. -/
def parseMultiAckNew (payload : List Nat) : Nat × Nat × List Nat :=
  let s0 : StreamIn := ⟨payload, 0⟩
  let r1 := s0.ReadUInt8
  let r2 := r1.2.2.ReadUInt8
  let r3 := r2.2.2.ReadUInt16LE
  let r4 := readAdditionalIDs r2.1 r3.2.2
  (r1.1, r3.1, r4.1)

/-- The `Each` pass over the scheduler (prudp_server.go lines 203-207):
append every in-flight sequence id at or below the base that is not already
collected. -/
def multiAckCollect (base : Nat) (sch : List (Nat × Packet)) (acc : List Nat) :
    List Nat :=
  sch.foldl
    (fun acc e => if e.1 ≤ base && !(acc.contains e.1) then acc ++ [e.1] else acc)
    acc

/-- Mirrors `handleMultiAcknowledgment` (prudp_server.go lines 169-213):
choose format by the outer substream id, collect the explicit ids, append
every in-flight id at or below the base that is not already collected, then
remove every collected id. -/
def handleMultiAcknowledgment (c : Client) (p : Packet) : Client :=
  let parsed :=
    if p.substreamID = 1 then parseMultiAckNew p.payload
    else (0, p.sequenceID, u16lePairs p.payload)
  let ssid := parsed.1
  let baseSequenceID := parsed.2.1
  let ids0 := parsed.2.2
  let ss := reliableSubstream c ssid
  let ids1 := multiAckCollect baseSequenceID ss.scheduler ids0
  setSubstream c ssid
    { ss with scheduler := ids1.foldl schedulerAck ss.scheduler }

/-- Mirrors `handleAcknowledgment` (prudp_server.go lines 157-167). -/
def handleAcknowledgment (c : Client) (p : Packet) : Client :=
  if p.flags.multiAck then handleMultiAcknowledgment c p
  else singleAcknowledge c p

/-- Lookup in the pending in-order buffer. -/
def lookupPending (l : List (Nat × Packet)) (k : Nat) : Option Packet :=
  (l.find? fun e => e.1 == k).map Prod.snd

/-- Removal from the pending in-order buffer. -/
def removePending (l : List (Nat × Packet)) (k : Nat) : List (Nat × Packet) :=
  l.filter fun e => e.1 ≠ k

/-- Modelled from the spec: the forward walk of the inbound reassembly
buffer, pulling packets out in sequence order starting at the expected id. -/
def drainReady : Nat → Nat → List (Nat × Packet) → Nat × List (Nat × Packet) × List Packet
  | 0, exp, pend => (exp, pend, [])
  | fuel + 1, exp, pend =>
    match lookupPending pend exp with
    | none => (exp, pend, [])
    | some q =>
      let r := drainReady fuel ((exp + 1) % 65536) (removePending pend exp)
      (r.1, r.2.1, q :: r.2.2)

/-- Modelled from the spec: `substream.Update(packet)` enqueues the packet
keyed by its sequence id and returns the packets that are now deliverable in
order. -/
def Substream.update (ss : Substream) (p : Packet) : Substream × List Packet :=
  let pend := removePending ss.pendingIn p.sequenceID ++ [(p.sequenceID, p)]
  let r := drainReady pend.length ss.nextExpected pend
  ({ ss with nextExpected := r.1, pendingIn := r.2.1 }, r.2.2)

/-- The delivery loop body of `handleReliable` (prudp_server.go lines
440-455): for each ready packet append its decrypted payload to the fragment
accumulator and, when the (outer) packet's fragment id is 0, emit
`reliable-data` and reset the accumulator. Note the source tests the OUTER
packet's type and fragment id inside the loop. -/
def reliableDeliverStep (cfg : Config) (p : Packet)
    (acc : Substream × List Effect) (q : Packet) : Substream × List Effect :=
  if p.ptype = .data then
    let payload := acc.1.fragmentedPayload ++ cfg.decryptPayload q
    if p.fragmentID = 0 then
      ({ acc.1 with fragmentedPayload := [] },
       acc.2 ++ [Effect.emitEvent "reliable-data" p])
    else
      ({ acc.1 with fragmentedPayload := payload }, acc.2)
  else acc

/-- The delivery loop of `handleReliable` folded over the ready packets. -/
def reliableDeliver (cfg : Config) (p : Packet) (ss : Substream)
    (ready : List Packet) : Substream × List Effect :=
  ready.foldl (reliableDeliverStep cfg p) (ss, [])

/-- Mirrors `handleReliable` (prudp_server.go lines 433-456): acknowledge
first when NEEDS_ACK is set, then update the substream and deliver. -/
def handleReliable (cfg : Config) (c : Client) (p : Packet) : Client × List Effect :=
  let acked := if p.flags.needsAck then acknowledgePacket cfg c p else (c, [])
  let c1 := acked.1
  let ss := reliableSubstream c1 p.substreamID
  let upd := ss.update p
  let delivered := reliableDeliver cfg p upd.1 upd.2
  (setSubstream c1 p.substreamID delivered.1, acked.2 ++ delivered.2)

/-- Mirrors `handleUnreliable` (prudp_server.go line 458): an empty body. -/
def handleUnreliable (c : Client) (_p : Packet) : Client × List Effect := (c, [])

/-- Mirrors `handleData` (prudp_server.go lines 321-327). -/
def handleData (cfg : Config) (c : Client) (p : Packet) : Client × List Effect :=
  if p.flags.reliable then handleReliable cfg c p else handleUnreliable c p

/-- Mirrors `handleDisconnect` (prudp_server.go lines 329-340): acknowledge
(three sends) when NEEDS_ACK, then remove the peer from the registry and emit
`disconnect`. -/
def handleDisconnect (cfg : Config) (c : Client) (p : Packet) : Client × List Effect :=
  let acked := if p.flags.needsAck then acknowledgePacket cfg c p else (c, [])
  (acked.1, acked.2 ++ [Effect.removeClient, Effect.emitEvent "disconnect" p])

/-- Mirrors `handlePing` (prudp_server.go lines 342-346). -/
def handlePing (cfg : Config) (c : Client) (p : Packet) : Client × List Effect :=
  if p.flags.needsAck then acknowledgePacket cfg c p else (c, [])

/-- Mirrors `handleSyn` (prudp_server.go lines 215-248). -/
def handleSyn (cfg : Config) (c : Client) (p : Packet) : Client × List Effect :=
  let connSig := cfg.calcConnSig c.address
  let c1 :=
    { c.reset with
      clientConnectionSignature := connSig
      sourceStreamType := p.sourceStreamType
      sourcePort := p.sourcePort
      destinationStreamType := p.destinationStreamType
      destinationPort := p.destinationPort }
  let ack :=
    { emptyPacket p.version with
      ptype := .syn
      flags := { Flags.clear with ack := true, hasSize := true }
      sourceStreamType := p.destinationStreamType
      sourcePort := p.destinationPort
      destinationStreamType := p.sourceStreamType
      destinationPort := p.sourcePort
      connectionSignature := connSig }
  (c1, [Effect.emitEvent "syn" ack, Effect.sendPkt ack (cfg.serialize ack [] [])])

/-- Modelled from the spec: ticket internal data (issued DateTime as raw
packed uint64, source PID, session key). -/
structure TicketInternal where
  issued : Nat
  sourcePID : Nat
  sessionKey : List Nat
  deriving DecidableEq

/-- Modelled from the spec: `KerberosTicketInternalData.Decrypt` — decrypt the
MAC'd RC4 blob with the server key (the `kerberosDecrypt` oracle yields the
cleartext, or nothing on MAC mismatch), then parse issued timestamp (u64 LE),
source PID (u32 LE) and the session key of the configured size. -/
def decryptTicketInternal (cfg : Config) (key ticketData : List Nat) :
    Except String TicketInternal :=
  match cfg.kerberosDecrypt key ticketData with
  | none => .error "Invalid Kerberos ticket signature"
  | some clear =>
    let s0 : StreamIn := ⟨clear, 0⟩
    match s0.ReadUInt64LE with
    | (_, some msg, _) => .error msg
    | (issued, none, s1) =>
      match s1.ReadUInt32LE with
      | (_, some msg, _) => .error msg
      | (pid, none, s2) =>
        if s2.Remaining < cfg.kerberosKeySize then
          .error "Not enough data to read session key"
        else
          .ok ⟨issued, pid, s2.bytesLeft.take cfg.kerberosKeySize⟩

/-- Mirrors `readKerberosTicket` (prudp_server.go lines 348-403): read the
ticket and request buffers, derive the server key, decrypt and parse the
ticket, reject tickets older than two minutes, decrypt the request block with
the ticket's session key and parse user PID, CID and check value. -/
def readKerberosTicket (cfg : Config) (payload : List Nat) :
    Except String (List Nat × Nat × Nat) :=
  let s : StreamIn := ⟨payload, 0⟩
  match s.ReadBuffer with
  | (_, some msg, _) => .error msg
  | (ticketData, none, s1) =>
    match s1.ReadBuffer with
    | (_, some msg, _) => .error msg
    | (requestData, none, _) =>
      let serverKey := cfg.deriveKerberosKey 2 cfg.kerberosPassword
      match decryptTicketInternal cfg serverKey ticketData with
      | .error msg => .error msg
      | .ok ticket =>
        let ticketTime := cfg.dtStandard ticket.issued
        if ticketTime + 120 < cfg.now then .error "Kerberos ticket expired"
        else
          match cfg.kerberosDecrypt ticket.sessionKey requestData with
          | none => .error "Invalid Kerberos request signature"
          | some decryptedRequestData =>
            let cs : StreamIn := ⟨decryptedRequestData, 0⟩
            match cs.ReadUInt32LE with
            | (_, some msg, _) => .error msg
            | (userPID, none, cs1) =>
              match cs1.ReadUInt32LE with
              | (_, some msg, _) => .error msg
              | (_, none, cs2) =>
                match cs2.ReadUInt32LE with
                | (_, some msg, _) => .error msg
                | (responseCheck, none, _) =>
                  .ok (ticket.sessionKey, userPID, responseCheck)

/-- Mirrors `handleConnect` (prudp_server.go lines 250-319). On a secure
server the Kerberos result is read; on error the source logs and proceeds
with the zero results (nil key, PID 0, check value 0). The ACK is always
signed and written to the socket after the `connect` emission. -/
def handleConnect (cfg : Config) (c : Client) (p : Packet) : Client × List Effect :=
  let c1 := { c with serverConnectionSignature := p.connectionSignature }
  let connSig := cfg.calcConnSig c1.address
  let ack0 :=
    { emptyPacket p.version with
      ptype := .connect
      flags := { Flags.clear with ack := true, hasSize := true }
      sourceStreamType := p.destinationStreamType
      sourcePort := p.destinationPort
      destinationStreamType := p.sourceStreamType
      destinationPort := p.sourcePort
      connectionSignature := List.replicate connSig.length 0
      sessionID := 0
      sequenceID := 1 }
  let versioned :=
    if p.version = 1 then
      ({ c1 with
          minorVersion := p.minorVersion
          supportedFunctions := p.supportedFunctions
          substreams := List.replicate (p.maximumSubstreamID + 1) Substream.init },
       { ack0 with
          maximumSubstreamID := p.maximumSubstreamID
          minorVersion := p.minorVersion
          supportedFunctions := p.supportedFunctions })
    else
      ({ c1 with substreams := List.replicate 1 Substream.init }, ack0)
  let c2 := versioned.1
  let ack1 := versioned.2
  let secured :=
    if cfg.isSecureServer then
      let kt :=
        match readKerberosTicket cfg p.payload with
        | .ok v => v
        | .error _ => ([], 0, 0)
      ({ c2 with pid := kt.2.1, sessionKey := kt.1 },
       writeUInt32LE 4 ++ writeUInt32LE ((kt.2.2 + 1) % 4294967296))
    else (c2, [])
  let c3 := secured.1
  let ack := { ack1 with payload := secured.2 }
  (c3, [Effect.emitEvent "connect" ack,
        Effect.sendPkt ack (cfg.serialize ack [] p.connectionSignature)])

/-- Mirrors `processPacket` (prudp_server.go lines 135-155). The heartbeat
reset touches only the real-time timer and is outside this state model. -/
def processPacket (cfg : Config) (c : Client) (p : Packet) : Client × List Effect :=
  if p.flags.ack || p.flags.multiAck then (handleAcknowledgment c p, [])
  else
    match p.ptype with
    | .syn => handleSyn cfg c p
    | .connect => handleConnect cfg c p
    | .data => handleData cfg c p
    | .disconnect => handleDisconnect cfg c p
    | .ping => handlePing cfg c p

theorem sentPackets_append (a b : List Effect) :
    sentPackets (a ++ b) = sentPackets a ++ sentPackets b := by
  simp [sentPackets]

theorem reliableDeliver_foldl_sends (cfg : Config) (p : Packet) :
    ∀ (ready : List Packet) (acc : Substream × List Effect),
      sentPackets (ready.foldl (reliableDeliverStep cfg p) acc).2 = sentPackets acc.2 := by
  intro ready
  induction ready with
  | nil => intro acc; rfl
  | cons q t ih =>
    intro acc
    rw [List.foldl_cons, ih]
    unfold reliableDeliverStep
    by_cases h1 : p.ptype = .data
    · by_cases h2 : p.fragmentID = 0 <;> simp [h1, h2, sentPackets]
    · simp [h1]

theorem reliableDeliver_sends (cfg : Config) (p : Packet) (ss : Substream)
    (ready : List Packet) :
    sentPackets (reliableDeliver cfg p ss ready).2 = [] :=
  reliableDeliver_foldl_sends cfg p ready (ss, [])

theorem sendPacket_mkAck (cfg : Config) (c : Client) (p : Packet) :
    sendPacket cfg c (mkAcknowledgement p) =
      (c, mkAcknowledgement p,
        Effect.sendPkt (mkAcknowledgement p)
          (cfg.serialize (mkAcknowledgement p) c.sessionKey
            c.serverConnectionSignature)) := by
  unfold sendPacket
  simp [mkAcknowledgement, emptyPacket, Flags.clear]

theorem acknowledgePacket_eq (cfg : Config) (c : Client) (p : Packet) :
    acknowledgePacket cfg c p =
      (c, List.replicate (if p.ptype = .disconnect then 3 else 1)
            (Effect.sendPkt (mkAcknowledgement p)
              (cfg.serialize (mkAcknowledgement p) c.sessionKey
                c.serverConnectionSignature))) := by
  by_cases h : p.ptype = .disconnect <;>
    simp [acknowledgePacket, sendPacket_mkAck, h, List.replicate]

/-- A shared concrete oracle configuration for witnesses and
counterexamples. -/
def oracleCfg : Config :=
  { isSecureServer := false
    fragmentSize := 1300
    kerberosPassword := []
    kerberosKeySize := 32
    now := 0
    deriveKerberosKey := fun _ _ => []
    kerberosDecrypt := fun _ d => some d
    dtStandard := fun t => t
    calcConnSig := fun _ => [7, 7, 7, 7]
    serialize := fun _ _ _ => []
    rc4 := fun st d => (d, st + d.length)
    decryptPayload := fun q => q.payload }

/-- A concrete connected peer with one substream, used by witnesses. -/
def baseClient : Client :=
  { address := 0
    pid := 0
    sessionKey := []
    clientConnectionSignature := []
    serverConnectionSignature := []
    sourceStreamType := 1
    sourcePort := 15
    destinationStreamType := 1
    destinationPort := 1
    minorVersion := 0
    supportedFunctions := 0
    substreams := [Substream.init]
    unreliableSeq := 0
    pingSeq := 0 }

/-- A concrete inbound packet of the given type and flags. -/
def mkPacket (t : PacketType) (f : Flags) : Packet :=
  { emptyPacket 1 with
    ptype := t
    flags := f
    sourceStreamType := 1
    sourcePort := 15
    destinationStreamType := 1
    destinationPort := 1
    sequenceID := 5
    substreamID := 0 }

def pingNeedsAck : Packet := mkPacket .ping { Flags.clear with needsAck := true }

def reliableDataNeedsAck : Packet :=
  mkPacket .data { Flags.clear with reliable := true, needsAck := true }

def disconnectNeedsAck : Packet :=
  mkPacket .disconnect { Flags.clear with needsAck := true }

def plainUnreliableData : Packet := mkPacket .data Flags.clear

def ackFlaggedData : Packet := mkPacket .data { Flags.clear with ack := true }

/-- Counterexample for C5: a DISCONNECT packet carrying NEEDS_ACK (and not
itself an ACK) is acknowledged with THREE ACK packets, not exactly one. -/
theorem needs_ack_single_ack_claim_false :
    disconnectNeedsAck.flags.needsAck = true ∧
    disconnectNeedsAck.flags.ack = false ∧
    disconnectNeedsAck.flags.multiAck = false ∧
    (sentPackets (processPacket oracleCfg baseClient disconnectNeedsAck).2).length = 3 := by
  decide

/-- C5 amended: for a received non-handshake packet carrying NEEDS_ACK and not
itself an ACK, the dispatcher emits exactly one ACK for a PING or reliable
DATA packet, three identical ACKs for a DISCONNECT, and none for an
unreliable DATA packet; each emitted ACK's sequence id equals the received
packet's sequence id and its source and destination stream-type/port fields
are the received packet's destination and source fields swapped. -/
theorem needs_ack_acknowledgment_corrected (cfg : Config) (c : Client) (p : Packet)
    (hack : p.flags.ack = false) (hmulti : p.flags.multiAck = false)
    (hneeds : p.flags.needsAck = true) :
    ((p.ptype = .ping ∨ (p.ptype = .data ∧ p.flags.reliable = true)) →
      sentPackets (processPacket cfg c p).2 = [mkAcknowledgement p]) ∧
    (p.ptype = .disconnect →
      sentPackets (processPacket cfg c p).2 = List.replicate 3 (mkAcknowledgement p)) ∧
    (p.ptype = .data → p.flags.reliable = false →
      sentPackets (processPacket cfg c p).2 = []) ∧
    (mkAcknowledgement p).sequenceID = p.sequenceID ∧
    (mkAcknowledgement p).sourceStreamType = p.destinationStreamType ∧
    (mkAcknowledgement p).sourcePort = p.destinationPort ∧
    (mkAcknowledgement p).destinationStreamType = p.sourceStreamType ∧
    (mkAcknowledgement p).destinationPort = p.sourcePort ∧
    (mkAcknowledgement p).flags.ack = true := by
  refine ⟨?_, ?_, ?_, rfl, rfl, rfl, rfl, rfl, rfl⟩
  · rintro (hp | ⟨hp, hrel⟩)
    · simp [processPacket, hack, hmulti, hp, handlePing, hneeds, acknowledgePacket_eq,
        sentPackets]
    · have hnd : p.ptype ≠ .disconnect := by rw [hp]; intro h; cases h
      simp only [processPacket, hack, hmulti, Bool.or_self, Bool.false_eq_true,
        if_false, hp]
      simp only [handleData, hrel, if_true, handleReliable, hneeds,
        acknowledgePacket_eq, if_neg hnd]
      rw [sentPackets_append]
      rw [reliableDeliver_sends]
      simp [sentPackets]
  · intro hp
    simp [processPacket, hack, hmulti, hp, handleDisconnect, hneeds,
      acknowledgePacket_eq, sentPackets_append, sentPackets]
  · intro hp hrel
    simp [processPacket, hack, hmulti, hp, handleData, hrel, handleUnreliable,
      sentPackets]

/-- Witness for C5's amended theorem: a concrete PING with NEEDS_ACK is
acknowledged exactly once. -/
theorem needs_ack_acknowledgment_corrected_witness :
    sentPackets (processPacket oracleCfg baseClient pingNeedsAck).2 =
      [mkAcknowledgement pingNeedsAck] :=
  (needs_ack_acknowledgment_corrected oracleCfg baseClient pingNeedsAck
    rfl rfl rfl).1 (Or.inl rfl)

/-- C7: for every reliable DATA packet carrying NEEDS_ACK, the effect list of
processing starts with the ACK send, so the ACK precedes every delivery
attempt and in particular every reliable-data emission that packet
completes. -/
theorem reliable_ack_before_delivery (cfg : Config) (c : Client) (p : Packet)
    (ht : p.ptype = .data) (hrel : p.flags.reliable = true)
    (hneeds : p.flags.needsAck = true) (hack : p.flags.ack = false)
    (hmulti : p.flags.multiAck = false) :
    (processPacket cfg c p).2 =
      Effect.sendPkt (mkAcknowledgement p)
          (cfg.serialize (mkAcknowledgement p) c.sessionKey c.serverConnectionSignature)
        :: (reliableDeliver cfg p ((reliableSubstream c p.substreamID).update p).1
              ((reliableSubstream c p.substreamID).update p).2).2 ∧
    ∀ (i : Nat) (q : Packet),
      (processPacket cfg c p).2.get? i = some (Effect.emitEvent "reliable-data" q) →
      1 ≤ i := by
  have hnd : p.ptype ≠ .disconnect := by rw [ht]; intro h; cases h
  have hfst : (processPacket cfg c p).2 =
      Effect.sendPkt (mkAcknowledgement p)
          (cfg.serialize (mkAcknowledgement p) c.sessionKey c.serverConnectionSignature)
        :: (reliableDeliver cfg p ((reliableSubstream c p.substreamID).update p).1
              ((reliableSubstream c p.substreamID).update p).2).2 := by
    simp only [processPacket, hack, hmulti, Bool.or_self, Bool.false_eq_true,
      if_false, ht]
    simp [handleData, hrel, handleReliable, hneeds, acknowledgePacket_eq,
      if_neg hnd, List.replicate]
  refine ⟨hfst, ?_⟩
  intro i q h
  match i with
  | 0 =>
    rw [hfst] at h
    simp at h
  | n + 1 => omega

/-- Witness for C7 at a concrete reliable DATA packet. -/
theorem reliable_ack_before_delivery_witness :
    (processPacket oracleCfg baseClient reliableDataNeedsAck).2 =
      Effect.sendPkt (mkAcknowledgement reliableDataNeedsAck)
          (oracleCfg.serialize (mkAcknowledgement reliableDataNeedsAck)
            baseClient.sessionKey baseClient.serverConnectionSignature)
        :: (reliableDeliver oracleCfg reliableDataNeedsAck
              ((reliableSubstream baseClient reliableDataNeedsAck.substreamID).update
                reliableDataNeedsAck).1
              ((reliableSubstream baseClient reliableDataNeedsAck.substreamID).update
                reliableDataNeedsAck).2).2 ∧
    ∀ (i : Nat) (q : Packet),
      (processPacket oracleCfg baseClient reliableDataNeedsAck).2.get? i =
        some (Effect.emitEvent "reliable-data" q) → 1 ≤ i :=
  reliable_ack_before_delivery oracleCfg baseClient reliableDataNeedsAck
    rfl rfl rfl rfl rfl

/-- C8: a received DISCONNECT packet carrying NEEDS_ACK is acknowledged with
three byte-identical ACK sends, the peer is removed from the client registry,
and the disconnect event is emitted, in that order. -/
theorem disconnect_triple_ack (cfg : Config) (c : Client) (p : Packet)
    (ht : p.ptype = .disconnect) (hneeds : p.flags.needsAck = true)
    (hack : p.flags.ack = false) (hmulti : p.flags.multiAck = false) :
    ∃ w, (processPacket cfg c p).2 =
      [Effect.sendPkt (mkAcknowledgement p) w,
       Effect.sendPkt (mkAcknowledgement p) w,
       Effect.sendPkt (mkAcknowledgement p) w,
       Effect.removeClient,
       Effect.emitEvent "disconnect" p] := by
  refine ⟨cfg.serialize (mkAcknowledgement p) c.sessionKey c.serverConnectionSignature, ?_⟩
  simp [processPacket, hack, hmulti, ht, handleDisconnect, hneeds,
    acknowledgePacket_eq, List.replicate]

/-- Witness for C8 at a concrete DISCONNECT packet. -/
theorem disconnect_triple_ack_witness :
    ∃ w, (processPacket oracleCfg baseClient disconnectNeedsAck).2 =
      [Effect.sendPkt (mkAcknowledgement disconnectNeedsAck) w,
       Effect.sendPkt (mkAcknowledgement disconnectNeedsAck) w,
       Effect.sendPkt (mkAcknowledgement disconnectNeedsAck) w,
       Effect.removeClient,
       Effect.emitEvent "disconnect" disconnectNeedsAck] :=
  disconnect_triple_ack oracleCfg baseClient disconnectNeedsAck rfl rfl rfl rfl

/-- A client holding one in-flight reliable packet with sequence id 5. -/
def clientWithInflight : Client :=
  { baseClient with
    substreams := [{ Substream.init with scheduler := [(5, emptyPacket 1)] }] }

/-- Counterexample for C10: a DATA packet without RELIABLE but with the ACK
flag set is routed to acknowledgment handling, which removes the matching
in-flight entry from the substream scheduler — peer state IS modified. -/
theorem unreliable_data_noop_claim_false :
    ackFlaggedData.ptype = .data ∧
    ackFlaggedData.flags.reliable = false ∧
    (reliableSubstream clientWithInflight 0).scheduler ≠ [] ∧
    (reliableSubstream
        (processPacket oracleCfg clientWithInflight ackFlaggedData).1 0).scheduler = [] := by
  decide

/-- C10 amended: a received DATA packet without the RELIABLE flag and without
the ACK and MULTI_ACK flags is a no-op beyond the heartbeat reset: no packet
is sent, no event is emitted, and the peer state is unchanged. -/
theorem unreliable_data_noop_corrected (cfg : Config) (c : Client) (p : Packet)
    (ht : p.ptype = .data) (hrel : p.flags.reliable = false)
    (hack : p.flags.ack = false) (hmulti : p.flags.multiAck = false) :
    processPacket cfg c p = (c, []) := by
  simp [processPacket, hack, hmulti, ht, handleData, hrel, handleUnreliable]

/-- Witness for C10's amended theorem at a concrete unreliable DATA packet. -/
theorem unreliable_data_noop_corrected_witness :
    processPacket oracleCfg baseClient plainUnreliableData = (baseClient, []) :=
  unreliable_data_noop_corrected oracleCfg baseClient plainUnreliableData
    rfl rfl rfl rfl

theorem bytesLeft_advance (s : StreamIn) (n : Nat) :
    (s.advance n).bytesLeft = s.bytesLeft.drop n := by
  simp [StreamIn.advance, StreamIn.bytesLeft, List.drop_drop, Nat.add_comm]

theorem advance_advance (s : StreamIn) (a b : Nat) :
    (s.advance a).advance b = s.advance (a + b) := by
  simp [StreamIn.advance, Nat.add_assoc]

theorem Remaining_eq (s : StreamIn) : s.Remaining = s.bytesLeft.length := rfl

theorem ReadUInt8_bytes (s : StreamIn) (b : Nat) (rest : List Nat)
    (h : s.bytesLeft = b :: rest) :
    s.ReadUInt8 = (b, none, s.advance 1) ∧ (s.advance 1).bytesLeft = rest := by
  constructor
  · rw [StreamIn.ReadUInt8, if_neg (by rw [Remaining_eq, h]; simp)]
    rw [StreamIn.byteAt, h]
    rfl
  · rw [bytesLeft_advance, h]
    rfl

theorem ReadUInt16LE_bytes (s : StreamIn) (b0 b1 : Nat) (rest : List Nat)
    (h : s.bytesLeft = b0 :: b1 :: rest) :
    s.ReadUInt16LE = (b0 + 256 * b1, none, s.advance 2) ∧
    (s.advance 2).bytesLeft = rest := by
  constructor
  · rw [StreamIn.ReadUInt16LE, if_neg (by rw [Remaining_eq, h]; simp)]
    rw [StreamIn.u16LEAt, StreamIn.byteAt, StreamIn.byteAt, h]
    rfl
  · rw [bytesLeft_advance, h]
    rfl

theorem ReadUInt32LE_bytes (s : StreamIn) (b0 b1 b2 b3 : Nat) (rest : List Nat)
    (h : s.bytesLeft = b0 :: b1 :: b2 :: b3 :: rest) :
    s.ReadUInt32LE =
      (b0 + 256 * b1 + 65536 * b2 + 16777216 * b3, none, s.advance 4) ∧
    (s.advance 4).bytesLeft = rest := by
  constructor
  · rw [StreamIn.ReadUInt32LE, if_neg (by rw [Remaining_eq, h]; simp)]
    rw [StreamIn.u32LEAt]
    simp only [StreamIn.byteAt, h]
    rfl
  · rw [bytesLeft_advance, h]
    rfl

theorem ReadUInt64LE_bytes (s : StreamIn) (b0 b1 b2 b3 b4 b5 b6 b7 : Nat)
    (rest : List Nat)
    (h : s.bytesLeft = b0 :: b1 :: b2 :: b3 :: b4 :: b5 :: b6 :: b7 :: rest) :
    s.ReadUInt64LE =
      (b0 + 256 * b1 + 65536 * b2 + 16777216 * b3 + 4294967296 * b4 +
        1099511627776 * b5 + 281474976710656 * b6 + 72057594037927936 * b7,
       none, s.advance 8) ∧
    (s.advance 8).bytesLeft = rest := by
  constructor
  · rw [StreamIn.ReadUInt64LE, if_neg (by rw [Remaining_eq, h]; simp)]
    rw [StreamIn.u64LEAt]
    simp only [StreamIn.byteAt, h]
    rfl
  · rw [bytesLeft_advance, h]
    rfl

theorem u16le_decode (v : Nat) (hv : v < 65536) :
    v % 256 + 256 * (v / 256 % 256) = v := by omega

theorem u32le_decode (v : Nat) (hv : v < 4294967296) :
    v % 256 + 256 * (v / 256 % 256) + 65536 * (v / 65536 % 256) +
      16777216 * (v / 16777216 % 256) = v := by omega

theorem u64le_decode (v : Nat) (hv : v < 18446744073709551616) :
    v % 256 + 256 * (v / 256 % 256) + 65536 * (v / 65536 % 256) +
      16777216 * (v / 16777216 % 256) + 4294967296 * (v / 4294967296 % 256) +
      1099511627776 * (v / 1099511627776 % 256) +
      281474976710656 * (v / 281474976710656 % 256) +
      72057594037927936 * (v / 72057594037927936 % 256) = v := by omega

/-- A NEX Buffer: u32 LE length prefix followed by the data. -/
def nexBuffer (d : List Nat) : List Nat := writeUInt32LE d.length ++ d

theorem ReadBuffer_bytes (s : StreamIn) (d rest : List Nat)
    (h : s.bytesLeft = nexBuffer d ++ rest) (hn : d.length < 4294967296) :
    s.ReadBuffer = (d, none, s.advance (4 + d.length)) ∧
    (s.advance (4 + d.length)).bytesLeft = rest := by
  have hcons : s.bytesLeft = d.length % 256 :: d.length / 256 % 256 ::
      d.length / 65536 % 256 :: d.length / 16777216 % 256 :: (d ++ rest) := by
    rw [h, nexBuffer, writeUInt32LE]
    simp
  have h32 := ReadUInt32LE_bytes s _ _ _ _ _ hcons
  have hval : d.length % 256 + 256 * (d.length / 256 % 256) +
      65536 * (d.length / 65536 % 256) + 16777216 * (d.length / 16777216 % 256)
      = d.length := u32le_decode _ hn
  have hread : s.ReadUInt32LE = (d.length, none, s.advance 4) := by
    rw [h32.1, hval]
  constructor
  · rw [StreamIn.ReadBuffer, hread]
    simp only []
    rw [if_neg (by rw [Remaining_eq, h32.2]; simp only [List.length_append]; omega)]
    rw [h32.2, List.take_left, advance_advance]
  · rw [bytesLeft_advance, h, nexBuffer]
    have hlen : 4 + d.length = (writeUInt32LE d.length ++ d).length := by
      simp only [writeUInt32LE, List.length_append, List.length_cons, List.length_nil]
    rw [hlen, List.drop_left]

/-- Secure-server configuration with identity decryption oracles and a
2-byte session-key size, used to exercise the Kerberos path. -/
def secureCfg (now : Nat) : Config :=
  { oracleCfg with isSecureServer := true, kerberosKeySize := 2, now := now }

/-- Cleartext of a ticket issued at raw DateTime `T` with source PID 7 and
session key [9, 9]. -/
def ticketClear (T : Nat) : List Nat := writeUInt64LE T ++ writeUInt32LE 7 ++ [9, 9]

/-- Cleartext of a request block with user PID 1234, CID 0 and check value 3. -/
def requestClear : List Nat := writeUInt32LE 1234 ++ writeUInt32LE 0 ++ writeUInt32LE 3

/-- A well-formed secure CONNECT payload for a ticket issued at `T`. -/
def connectPayload (T : Nat) : List Nat :=
  nexBuffer (ticketClear T) ++ nexBuffer requestClear

/-- A CONNECT packet carrying the secure payload for issue time `T`. -/
def secureConnectPacket (T : Nat) : Packet :=
  { mkPacket .connect Flags.clear with payload := connectPayload T }

theorem readKerberosTicket_window_eval (T now : Nat)
    (hT : T < 18446744073709551616) :
    readKerberosTicket (secureCfg now) (connectPayload T) =
      if T + 120 < now then Except.error "Kerberos ticket expired"
      else Except.ok ([9, 9], 1234, 3) := by
  have hb0 : (⟨connectPayload T, 0⟩ : StreamIn).bytesLeft =
      nexBuffer (ticketClear T) ++ nexBuffer requestClear := by
    simp [StreamIn.bytesLeft, connectPayload]
  have hbuf1 := ReadBuffer_bytes ⟨connectPayload T, 0⟩ (ticketClear T)
    (nexBuffer requestClear) hb0 (by simp [ticketClear, writeUInt64LE, writeUInt32LE])
  have hb1 : ((⟨connectPayload T, 0⟩ : StreamIn).advance
      (4 + (ticketClear T).length)).bytesLeft = nexBuffer requestClear ++ [] := by
    rw [hbuf1.2, List.append_nil]
  have hbuf2 := ReadBuffer_bytes _ requestClear [] hb1
    (by simp [requestClear, writeUInt32LE])
  have htick : (⟨ticketClear T, 0⟩ : StreamIn).bytesLeft =
      T % 256 :: T / 256 % 256 :: T / 65536 % 256 :: T / 16777216 % 256 ::
      T / 4294967296 % 256 :: T / 1099511627776 % 256 ::
      T / 281474976710656 % 256 :: T / 72057594037927936 % 256 ::
      (writeUInt32LE 7 ++ [9, 9]) := by
    simp [StreamIn.bytesLeft, ticketClear, writeUInt64LE]
  have h64 := ReadUInt64LE_bytes _ _ _ _ _ _ _ _ _ _ htick
  have hpid32 := ReadUInt32LE_bytes ((⟨ticketClear T, 0⟩ : StreamIn).advance 8)
    7 0 0 0 [9, 9] (by rw [h64.2]; simp [writeUInt32LE])
  have hreq : (⟨requestClear, 0⟩ : StreamIn).bytesLeft =
      210 :: 4 :: 0 :: 0 :: (writeUInt32LE 0 ++ writeUInt32LE 3) := by
    simp [StreamIn.bytesLeft, requestClear, writeUInt32LE]
  have hr1 := ReadUInt32LE_bytes (⟨requestClear, 0⟩ : StreamIn) 210 4 0 0 _ hreq
  have hr2 := ReadUInt32LE_bytes ((⟨requestClear, 0⟩ : StreamIn).advance 4)
    0 0 0 0 (writeUInt32LE 3) (by rw [hr1.2]; simp [writeUInt32LE])
  have hr3 := ReadUInt32LE_bytes (((⟨requestClear, 0⟩ : StreamIn).advance 4).advance 4)
    3 0 0 0 [] (by rw [hr2.2]; simp [writeUInt32LE])
  rw [readKerberosTicket, hbuf1.1]
  simp only []
  rw [hbuf2.1]
  simp only []
  have hdti : decryptTicketInternal (secureCfg now)
      ((secureCfg now).deriveKerberosKey 2 (secureCfg now).kerberosPassword)
      (ticketClear T) = .ok ⟨T, 7, [9, 9]⟩ := by
    rw [decryptTicketInternal]
    have hdk : (secureCfg now).kerberosDecrypt
        ((secureCfg now).deriveKerberosKey 2 (secureCfg now).kerberosPassword)
        (ticketClear T) = some (ticketClear T) := rfl
    rw [hdk]
    simp only []
    rw [h64.1]
    simp only []
    rw [hpid32.1]
    simp only []
    have hrem2 : (((⟨ticketClear T, 0⟩ : StreamIn).advance 8).advance 4).Remaining = 2 := by
      rw [Remaining_eq, hpid32.2]
      rfl
    rw [if_neg (by rw [hrem2]; simp [secureCfg, oracleCfg])]
    have hkey : ((((⟨ticketClear T, 0⟩ : StreamIn).advance 8).advance 4).bytesLeft.take
        (secureCfg now).kerberosKeySize) = [9, 9] := by
      rw [hpid32.2]
      rfl
    rw [hkey]
    rw [u64le_decode T hT]
  rw [hdti]
  simp only []
  by_cases hwin : T + 120 < now
  · rw [if_pos (by simpa [secureCfg, oracleCfg] using hwin), if_pos hwin]
  · rw [if_neg (by simpa [secureCfg, oracleCfg] using hwin), if_neg hwin]
    have hdk2 : (secureCfg now).kerberosDecrypt [9, 9] requestClear =
        some requestClear := rfl
    rw [hdk2]
    simp only []
    rw [hr1.1]
    simp only []
    rw [hr2.1]
    simp only []
    rw [hr3.1]

/-- C6: Kerberos ticket validation accepts a ticket issued at time T for any
current time up to and including T+120 seconds and rejects it, returning an
error, for any current time strictly after T+120 seconds. -/
theorem kerberos_ticket_time_window (T now : Nat)
    (hT : T < 18446744073709551616) :
    (now ≤ T + 120 →
      readKerberosTicket (secureCfg now) (connectPayload T) =
        .ok ([9, 9], 1234, 3)) ∧
    (T + 120 < now →
      readKerberosTicket (secureCfg now) (connectPayload T) =
        .error "Kerberos ticket expired") := by
  have h := readKerberosTicket_window_eval T now hT
  constructor
  · intro hle
    rw [h, if_neg (by omega)]
  · intro hlt
    rw [h, if_pos hlt]

/-- Witness for C6: a ticket issued at 0 is accepted at time 120 and rejected
at time 121. -/
theorem kerberos_ticket_time_window_witness :
    readKerberosTicket (secureCfg 120) (connectPayload 0) = .ok ([9, 9], 1234, 3) ∧
    readKerberosTicket (secureCfg 121) (connectPayload 0) =
      .error "Kerberos ticket expired" :=
  ⟨(kerberos_ticket_time_window 0 120 (by norm_num)).1 (by norm_num),
   (kerberos_ticket_time_window 0 121 (by norm_num)).2 (by norm_num)⟩

/-- C2: for a CONNECT packet on a secure server whose Kerberos ticket and
request block validate yielding (sessionKey, pid, checkValue), the
CONNECT-ACK payload is exactly the 8 bytes {u32 LE 4, u32 LE checkValue+1}
and the peer's session key and PID are set to the ticket's session key and
the request's user PID. -/
theorem connect_ack_secure_payload (cfg : Config) (c : Client) (p : Packet)
    (sk : List Nat) (pid chk : Nat)
    (hsec : cfg.isSecureServer = true) (ht : p.ptype = .connect)
    (hack : p.flags.ack = false) (hmulti : p.flags.multiAck = false)
    (hkt : readKerberosTicket cfg p.payload = .ok (sk, pid, chk)) :
    (processPacket cfg c p).1.sessionKey = sk ∧
    (processPacket cfg c p).1.pid = pid ∧
    (sentPackets (processPacket cfg c p).2).map Packet.payload =
      [writeUInt32LE 4 ++ writeUInt32LE ((chk + 1) % 4294967296)] ∧
    (writeUInt32LE 4 ++ writeUInt32LE ((chk + 1) % 4294967296)).length = 8 := by
  have hproc : processPacket cfg c p = handleConnect cfg c p := by
    simp [processPacket, hack, hmulti, ht]
  rw [hproc]
  by_cases hv : p.version = 1 <;>
    simp [handleConnect, hsec, hkt, hv, sentPackets, writeUInt32LE]

/-- Witness for C2 at a concrete secure CONNECT exchange: session key [9, 9],
user PID 1234, check value 3, ACK payload 04 00 00 00 04 00 00 00. -/
theorem connect_ack_secure_payload_witness :
    (processPacket (secureCfg 0) baseClient (secureConnectPacket 0)).1.sessionKey
      = [9, 9] ∧
    (processPacket (secureCfg 0) baseClient (secureConnectPacket 0)).1.pid = 1234 ∧
    (sentPackets (processPacket (secureCfg 0) baseClient
        (secureConnectPacket 0)).2).map Packet.payload =
      [writeUInt32LE 4 ++ writeUInt32LE ((3 + 1) % 4294967296)] ∧
    (writeUInt32LE 4 ++ writeUInt32LE ((3 + 1) % 4294967296)).length = 8 :=
  connect_ack_secure_payload (secureCfg 0) baseClient (secureConnectPacket 0)
    [9, 9] 1234 3 rfl rfl rfl rfl
    (by
      show readKerberosTicket (secureCfg 0) (connectPayload 0) =
        Except.ok ([9, 9], 1234, 3)
      rw [readKerberosTicket_window_eval 0 0 (by norm_num)]
      norm_num)

/-- A secure configuration whose decryption oracle always reports a MAC
mismatch. -/
def macFailCfg : Config := { secureCfg 0 with kerberosDecrypt := fun _ _ => none }

/-- Whether an Except value is an error. -/
def isError {α : Type} : Except String α → Bool
  | .error _ => true
  | .ok _ => false

/-- Counterexample for C4: on a secure server whose ticket fails MAC
verification, the CONNECT is still completed — exactly one CONNECT-ACK is
sent, its payload is {u32 4, u32 1}, and the peer's PID is overwritten with
0 (here from the prior value 777) rather than left unset. -/
theorem connect_auth_failure_still_acks :
    isError (readKerberosTicket macFailCfg (secureConnectPacket 0).payload) = true ∧
    (sentPackets (processPacket macFailCfg
        { baseClient with pid := 777 } (secureConnectPacket 0)).2).length = 1 ∧
    (sentPackets (processPacket macFailCfg
        { baseClient with pid := 777 } (secureConnectPacket 0)).2).map Packet.payload =
      [writeUInt32LE 4 ++ writeUInt32LE 1] ∧
    (processPacket macFailCfg { baseClient with pid := 777 }
        (secureConnectPacket 0)).1.pid = 0 := by
  decide

/-- C4 amended: when Kerberos validation fails on a secure server, the server
logs the error and proceeds with the zero results: the CONNECT-ACK is still
sent, with payload {u32 4, u32 1}, and the peer's PID is set to 0 and its
session key to the empty key. -/
theorem connect_auth_failure_behavior (cfg : Config) (c : Client) (p : Packet)
    (msg : String)
    (hsec : cfg.isSecureServer = true) (ht : p.ptype = .connect)
    (hack : p.flags.ack = false) (hmulti : p.flags.multiAck = false)
    (hkt : readKerberosTicket cfg p.payload = .error msg) :
    (processPacket cfg c p).1.pid = 0 ∧
    (processPacket cfg c p).1.sessionKey = [] ∧
    (sentPackets (processPacket cfg c p).2).map Packet.payload =
      [writeUInt32LE 4 ++ writeUInt32LE 1] := by
  have hproc : processPacket cfg c p = handleConnect cfg c p := by
    simp [processPacket, hack, hmulti, ht]
  rw [hproc]
  by_cases hv : p.version = 1 <;>
    simp [handleConnect, hsec, hkt, hv, sentPackets, writeUInt32LE]

/-- Witness for C4's amended theorem at the MAC-failure configuration. -/
theorem connect_auth_failure_behavior_witness :
    (processPacket macFailCfg baseClient (secureConnectPacket 0)).1.pid = 0 ∧
    (processPacket macFailCfg baseClient (secureConnectPacket 0)).1.sessionKey = [] ∧
    (sentPackets (processPacket macFailCfg baseClient
        (secureConnectPacket 0)).2).map Packet.payload =
      [writeUInt32LE 4 ++ writeUInt32LE 1] :=
  connect_auth_failure_behavior macFailCfg baseClient (secureConnectPacket 0)
    "Invalid Kerberos ticket signature" rfl rfl rfl rfl (by rfl)

/-- The new multi-ack payload encoding: u8 real substream id, u8 count,
u16 LE base, then the additional ids as u16 LE. -/
def encodeMultiAckNew (rs base : Nat) (ids : List Nat) : List Nat :=
  [rs, ids.length] ++ writeUInt16LE base ++ (ids.map writeUInt16LE).flatten

theorem contains_mem (l : List Nat) (x : Nat) : l.contains x = true ↔ x ∈ l := by
  simp

theorem getD_set_self (l : List Substream) (i : Nat) (a d : Substream)
    (h : i < l.length) : (l.set i a).getD i d = a := by
  rw [List.getD, List.get?_eq_getElem?, List.getElem?_set_self']
  simp [h]

theorem reliableSubstream_set_self (c : Client) (i : Nat) (ss : Substream)
    (h : i < c.substreams.length) :
    reliableSubstream (setSubstream c i ss) i = ss :=
  getD_set_self c.substreams i ss Substream.init h

theorem readAdditionalIDs_encoded :
    ∀ (ids : List Nat) (s : StreamIn) (rest : List Nat),
      (∀ v ∈ ids, v < 65536) →
      s.bytesLeft = (ids.map writeUInt16LE).flatten ++ rest →
      (readAdditionalIDs ids.length s).1 = ids := by
  intro ids
  induction ids with
  | nil => intro s rest _ _; rfl
  | cons v t ih =>
    intro s rest hv hb
    have hcons : s.bytesLeft =
        v % 256 :: v / 256 % 256 :: ((t.map writeUInt16LE).flatten ++ rest) := by
      rw [hb]
      simp [writeUInt16LE]
    have h16 := ReadUInt16LE_bytes s _ _ _ hcons
    have hval : v % 256 + 256 * (v / 256 % 256) = v :=
      u16le_decode v (hv v (by simp))
    show (readAdditionalIDs (t.length + 1) s).1 = v :: t
    simp only [readAdditionalIDs, h16.1]
    rw [hval]
    rw [ih (s.advance 2) rest (fun x hx => hv x (by simp [hx])) h16.2]

theorem u16lePairs_encoded :
    ∀ (ids : List Nat), (∀ v ∈ ids, v < 65536) →
      u16lePairs ((ids.map writeUInt16LE).flatten) = ids := by
  intro ids
  induction ids with
  | nil => intro _; rfl
  | cons v t ih =>
    intro hv
    have hshape : ((v :: t).map writeUInt16LE).flatten =
        v % 256 :: v / 256 % 256 :: ((t.map writeUInt16LE).flatten) := by
      simp [writeUInt16LE]
    rw [hshape, u16lePairs]
    rw [u16le_decode v (hv v (by simp)), ih (fun x hx => hv x (by simp [hx]))]

theorem parseMultiAckNew_encoded (rs base : Nat) (ids : List Nat)
    (hbase : base < 65536) (hids : ∀ v ∈ ids, v < 65536) :
    parseMultiAckNew (encodeMultiAckNew rs base ids) = (rs, base, ids) := by
  have hb0 : (⟨encodeMultiAckNew rs base ids, 0⟩ : StreamIn).bytesLeft =
      rs :: (ids.length :: (writeUInt16LE base ++ (ids.map writeUInt16LE).flatten)) := by
    simp [StreamIn.bytesLeft, encodeMultiAckNew]
  have h1 := ReadUInt8_bytes _ _ _ hb0
  have hb1 : ((⟨encodeMultiAckNew rs base ids, 0⟩ : StreamIn).advance 1).bytesLeft =
      ids.length :: (writeUInt16LE base ++ (ids.map writeUInt16LE).flatten) := h1.2
  have h2 := ReadUInt8_bytes _ _ _ hb1
  have hb2 : (((⟨encodeMultiAckNew rs base ids, 0⟩ : StreamIn).advance 1).advance
      1).bytesLeft =
      base % 256 :: base / 256 % 256 :: (ids.map writeUInt16LE).flatten := by
    rw [h2.2]
    simp [writeUInt16LE]
  have h3 := ReadUInt16LE_bytes _ _ _ _ hb2
  have hb3 : ((((⟨encodeMultiAckNew rs base ids, 0⟩ : StreamIn).advance 1).advance
      1).advance 2).bytesLeft = (ids.map writeUInt16LE).flatten ++ [] := by
    rw [h3.2, List.append_nil]
  have h4 := readAdditionalIDs_encoded ids _ [] hids hb3
  simp only [parseMultiAckNew, h1.1]
  simp only [h2.1]
  simp only [h3.1]
  rw [u16le_decode base hbase, h4]

theorem multiAckCollect_mem (base : Nat) :
    ∀ (sch : List (Nat × Packet)) (acc : List Nat) (x : Nat),
      x ∈ multiAckCollect base sch acc ↔
        x ∈ acc ∨ (x ≤ base ∧ ∃ q, (x, q) ∈ sch) := by
  intro sch
  induction sch with
  | nil => intro acc x; simp [multiAckCollect]
  | cons e t ih =>
    intro acc x
    have hstep : multiAckCollect base (e :: t) acc =
        multiAckCollect base t
          (if e.1 ≤ base && !(acc.contains e.1) then acc ++ [e.1] else acc) := rfl
    rw [hstep, ih]
    by_cases h1 : e.1 ≤ base
    · by_cases h2 : e.1 ∈ acc
      · rw [if_neg (by simp [h2])]
        constructor
        · rintro (hx | ⟨hxb, q, hq⟩)
          · exact Or.inl hx
          · exact Or.inr ⟨hxb, q, List.mem_cons_of_mem _ hq⟩
        · rintro (hx | ⟨hxb, q, hq⟩)
          · exact Or.inl hx
          · rcases List.mem_cons.1 hq with hq | hq
            · have hxe : x = e.1 := congrArg Prod.fst hq
              exact Or.inl (hxe ▸ h2)
            · exact Or.inr ⟨hxb, q, hq⟩
      · rw [if_pos (by simp [h1, h2])]
        constructor
        · rintro (hx | ⟨hxb, q, hq⟩)
          · rcases List.mem_append.1 hx with hx | hx
            · exact Or.inl hx
            · have hxe : x = e.1 := by simpa using hx
              exact Or.inr ⟨hxe ▸ h1, e.2, hxe ▸ List.mem_cons_self _ _⟩
          · exact Or.inr ⟨hxb, q, List.mem_cons_of_mem _ hq⟩
        · rintro (hx | ⟨hxb, q, hq⟩)
          · exact Or.inl (List.mem_append.2 (Or.inl hx))
          · rcases List.mem_cons.1 hq with hq | hq
            · have hxe : x = e.1 := congrArg Prod.fst hq
              exact Or.inl (List.mem_append.2 (Or.inr (by simp [hxe])))
            · exact Or.inr ⟨hxb, q, hq⟩
    · rw [if_neg (by simp [h1])]
      constructor
      · rintro (hx | ⟨hxb, q, hq⟩)
        · exact Or.inl hx
        · exact Or.inr ⟨hxb, q, List.mem_cons_of_mem _ hq⟩
      · rintro (hx | ⟨hxb, q, hq⟩)
        · exact Or.inl hx
        · rcases List.mem_cons.1 hq with hq | hq
          · have hxe : x = e.1 := congrArg Prod.fst hq
            exact absurd (hxe ▸ hxb) h1
          · exact Or.inr ⟨hxb, q, hq⟩

theorem foldl_schedulerAck :
    ∀ (ids : List Nat) (sch : List (Nat × Packet)),
      ids.foldl schedulerAck sch = sch.filter fun e => !(ids.contains e.1) := by
  intro ids
  induction ids with
  | nil =>
    intro sch
    simp
  | cons a t ih =>
    intro sch
    rw [List.foldl_cons, ih, schedulerAck, List.filter_filter]
    apply List.filter_congr
    intro e _
    by_cases h : e.1 = a <;> by_cases h2 : e.1 ∈ t <;>
      simp [h, h2]

theorem multiAck_scheduler_filter (base : Nat) (ids0 : List Nat)
    (sch : List (Nat × Packet)) :
    (multiAckCollect base sch ids0).foldl schedulerAck sch =
      sch.filter fun e => decide (base < e.1) && !(ids0.contains e.1) := by
  rw [foldl_schedulerAck]
  apply List.filter_congr
  intro e he
  have hmem := multiAckCollect_mem base sch ids0 e.1
  have hc0 := contains_mem ids0 e.1
  have hc1 := contains_mem (multiAckCollect base sch ids0) e.1
  by_cases h1 : e.1 ≤ base
  · by_cases h2 : e.1 ∈ ids0
    · rw [hc1.2 (hmem.2 (Or.inl h2)), hc0.2 h2]
      simp
    · have hnlt : ¬ base < e.1 := by omega
      rw [hc1.2 (hmem.2 (Or.inr ⟨h1, e.2, he⟩))]
      simp [hnlt]
  · by_cases h2 : e.1 ∈ ids0
    · rw [hc1.2 (hmem.2 (Or.inl h2)), hc0.2 h2]
      simp
    · have hnin : e.1 ∉ multiAckCollect base sch ids0 := by
        intro hin
        rcases hmem.1 hin with hin | ⟨hle, _⟩
        · exact h2 hin
        · exact h1 hle
      have hcon : (multiAckCollect base sch ids0).contains e.1 = false := by
        cases hcase : (multiAckCollect base sch ids0).contains e.1
        · rfl
        · exact absurd (hc1.1 hcase) hnin
      have hcon0 : ids0.contains e.1 = false := by
        cases hcase : ids0.contains e.1
        · rfl
        · exact absurd (hc0.1 hcase) h2
      have hlt : base < e.1 := by omega
      rw [hcon, hcon0]
      simp [hlt]

/-- C3: a multi-ACK with outer substream id 1 is parsed as {u8 realSubstream,
u8 count, u16 base, u16 ids[count]} and applies to that substream; any other
outer substream id selects substream 0 with the outer sequence id as base and
the payload as raw u16 ids. In both cases the chosen substream's scheduler
afterwards equals its old value with exactly base, the additional ids, and
every in-flight id at or below base removed — so it contains none of those,
and no other entry is removed. -/
theorem multi_ack_scheduler_removal (c : Client) (p : Packet)
    (rs base : Nat) (ids : List Nat) :
    (p.substreamID = 1 → p.payload = encodeMultiAckNew rs base ids →
     rs < c.substreams.length → base < 65536 → (∀ v ∈ ids, v < 65536) →
      (reliableSubstream (handleMultiAcknowledgment c p) rs).scheduler =
        (reliableSubstream c rs).scheduler.filter
          (fun e => decide (base < e.1) && !(ids.contains e.1)) ∧
      ∀ e ∈ (reliableSubstream (handleMultiAcknowledgment c p) rs).scheduler,
        e.1 ≠ base ∧ e.1 ∉ ids ∧ base < e.1) ∧
    (p.substreamID ≠ 1 → p.payload = (ids.map writeUInt16LE).flatten →
     0 < c.substreams.length → (∀ v ∈ ids, v < 65536) →
      (reliableSubstream (handleMultiAcknowledgment c p) 0).scheduler =
        (reliableSubstream c 0).scheduler.filter
          (fun e => decide (p.sequenceID < e.1) && !(ids.contains e.1))) := by
  constructor
  · intro hsub hpay hlen hbase hids
    have hparse := parseMultiAckNew_encoded rs base ids hbase hids
    have hh : handleMultiAcknowledgment c p =
        setSubstream c rs
          { reliableSubstream c rs with
            scheduler :=
              (multiAckCollect base (reliableSubstream c rs).scheduler ids).foldl
                schedulerAck (reliableSubstream c rs).scheduler } := by
      simp only [handleMultiAcknowledgment, hsub, if_true, hpay, hparse]
    have hget := reliableSubstream_set_self c rs
      { reliableSubstream c rs with
        scheduler :=
          (multiAckCollect base (reliableSubstream c rs).scheduler ids).foldl
            schedulerAck (reliableSubstream c rs).scheduler } hlen
    have hsched : (reliableSubstream (handleMultiAcknowledgment c p) rs).scheduler =
        (reliableSubstream c rs).scheduler.filter
          (fun e => decide (base < e.1) && !(ids.contains e.1)) := by
      rw [hh, hget]
      exact multiAck_scheduler_filter base ids (reliableSubstream c rs).scheduler
    refine ⟨hsched, ?_⟩
    intro e he
    rw [hsched] at he
    have hmf := List.mem_filter.1 he
    have hp := hmf.2
    simp only [Bool.and_eq_true, decide_eq_true_eq, Bool.not_eq_true'] at hp
    have hnotin : e.1 ∉ ids := by
      intro hin
      rw [(contains_mem ids e.1).2 hin] at hp
      exact absurd hp.2 (by simp)
    exact ⟨by omega, hnotin, hp.1⟩
  · intro hsub hpay hlen hids
    have hpairs := u16lePairs_encoded ids hids
    have hh : handleMultiAcknowledgment c p =
        setSubstream c 0
          { reliableSubstream c 0 with
            scheduler :=
              (multiAckCollect p.sequenceID (reliableSubstream c 0).scheduler
                ids).foldl schedulerAck (reliableSubstream c 0).scheduler } := by
      simp only [handleMultiAcknowledgment, hsub, if_false, hpay, hpairs]
    have hget := reliableSubstream_set_self c 0
      { reliableSubstream c 0 with
        scheduler :=
          (multiAckCollect p.sequenceID (reliableSubstream c 0).scheduler
            ids).foldl schedulerAck (reliableSubstream c 0).scheduler } hlen
    rw [hh, hget]
    exact multiAck_scheduler_filter p.sequenceID ids
      (reliableSubstream c 0).scheduler

/-- A peer holding in-flight ids {5, 7, 8, 9, 10} on substream 0. -/
def multiAckClient : Client :=
  { baseClient with
    substreams :=
      [{ Substream.init with
          scheduler := [(5, emptyPacket 1), (7, emptyPacket 1), (8, emptyPacket 1),
                        (9, emptyPacket 1), (10, emptyPacket 1)] }] }

/-- A new-format multi-ACK for substream 0 with base 10 and additional ids
[7, 9]. -/
def multiAckPacket : Packet :=
  { mkPacket .data { Flags.clear with multiAck := true } with
    substreamID := 1
    payload := encodeMultiAckNew 0 10 [7, 9] }

/-- Witness for C3 at the concrete scenario: scheduler {5,7,8,9,10}, base 10,
additional ids [7, 9]. -/
theorem multi_ack_scheduler_removal_witness :
    (reliableSubstream (handleMultiAcknowledgment multiAckClient multiAckPacket)
        0).scheduler =
      (reliableSubstream multiAckClient 0).scheduler.filter
        (fun e => decide (10 < e.1) && !([7, 9].contains e.1)) ∧
    ∀ e ∈ (reliableSubstream (handleMultiAcknowledgment multiAckClient
        multiAckPacket) 0).scheduler,
      e.1 ≠ 10 ∧ e.1 ∉ [7, 9] ∧ 10 < e.1 :=
  (multi_ack_scheduler_removal multiAckClient multiAckPacket 0 10 [7, 9]).1
    rfl rfl (by decide) (by decide) (by decide)

end Nex
